import Mathlib

/-!
# Verification of the Integrated Flight Management System (flight planning core)

Shallow embedding of the Python sources
`python_modules/flight_planning/flight_plan_manager.py`,
`python_modules/flight_planning/route_optimizer.py`,
`python_modules/nav_database/nav_data_manager.py` and
`python_modules/nav_database/waypoint_database.py`.

Modelling conventions:
* Python floats for latitudes/longitudes/distances are modelled as rationals.
  The transcendental haversine distance (math.sin, math.cos, math.atan2 over
  IEEE-754 doubles) cannot be embedded exactly; every routine that consumes it
  takes the distance function as an explicit parameter, so the theorems hold
  for every distance function, in particular for the haversine of the source.
* The SQLite navigation database is modelled as an in-memory association list:
  a row list for the waypoints table (lookup by exact identifier match, as in
  NavigationDatabase.find_waypoint's WHERE identifier = ?) and a name-keyed
  list of ordered waypoint-identifier lists for the airway tables.
* Methods that mutate the manager in place become functions from the manager
  state to (returned value, new state).
* The created_date timestamp (wall-clock time) is not modelled: no claim
  depends on it.
-/

namespace FMS

/-- Navigation waypoint row, as in the plain dataclass Waypoint of
nav_data_manager.py (identifier, latitude, longitude, altitude,
waypoint_type). -/
structure Waypoint where
  identifier : String
  latitude : ℚ
  longitude : ℚ
  altitude : Option ℚ := none
  waypoint_type : String := "WAYPOINT"
deriving DecidableEq, Repr

/-- The navigation database: the waypoints table (row order preserved) and the
airway tables, already joined and ordered by sequence_order as in
AirwayDatabase.get_airway_waypoints. -/
structure NavigationDatabase where
  waypoints : List Waypoint
  airways : List (String × List String) := []
deriving DecidableEq, Repr

/-- NavigationDatabase.find_waypoint: exact match on the identifier column
(SQL equality on TEXT is case sensitive); the waypoints table has a UNIQUE
identifier column, modelled by taking the first matching row. -/
def NavigationDatabase.find_waypoint (db : NavigationDatabase) (identifier : String) :
    Option Waypoint :=
  db.waypoints.find? (fun w => w.identifier == identifier)

/-- AirwayDatabase.get_airway_waypoints: the ordered waypoint identifiers of
the named airway; unknown airway gives the empty list. -/
def NavigationDatabase.get_airway_ids (db : NavigationDatabase) (airway_name : String) :
    List String :=
  match db.airways.find? (fun p => p.1 == airway_name) with
  | none => []
  | some p => p.2

/-- NavigationDatabase.get_airway_waypoints: resolve each identifier of the
airway, silently dropping the ones that do not resolve. -/
def NavigationDatabase.get_airway_waypoints (db : NavigationDatabase) (airway_name : String) :
    List Waypoint :=
  (db.get_airway_ids airway_name).filterMap (fun wp_id => db.find_waypoint wp_id)

/-- FlightPlanWaypoint of flight_plan_manager.py: snapshot of a waypoint taken
at plan-build time. -/
structure FlightPlanWaypoint where
  identifier : String
  latitude : ℚ
  longitude : ℚ
  altitude : Option Int := none
  speed : Option Int := none
  waypoint_type : String := "waypoint"
  procedure_type : Option String := none
deriving DecidableEq, Repr

/-- FlightPlan of flight_plan_manager.py (created_date omitted, see header). -/
structure FlightPlan where
  name : String
  departure : String
  arrival : String
  waypoints : List FlightPlanWaypoint
  cruise_altitude : Int := 35000
  cruise_speed : Int := 450
  route_distance : ℚ := 0
  estimated_time : ℚ := 0
deriving DecidableEq, Repr

/-- The mutable state of FlightPlanManager: the active plan, the current leg
index and the name-keyed flight plan dictionary. -/
structure FlightPlanManager where
  active_plan : Option FlightPlan := none
  current_leg_index : Nat := 0
  flight_plans : List (String × FlightPlan) := []
deriving DecidableEq, Repr

/-- Python dict assignment d[k] = v on the flight_plans dictionary. -/
def dictSet (l : List (String × FlightPlan)) (k : String) (v : FlightPlan) :
    List (String × FlightPlan) :=
  (l.filter (fun p => p.1 ≠ k)) ++ [(k, v)]

/-- FlightPlanManager.set_active_plan: store the plan and reset the leg index
to 0 (the body cannot raise, so it always returns True). -/
def set_active_plan (st : FlightPlanManager) (flight_plan : FlightPlan) :
    Bool × FlightPlanManager :=
  (true, { st with active_plan := some flight_plan, current_leg_index := 0 })

/-- FlightPlanManager.clear_active_plan. -/
def clear_active_plan (st : FlightPlanManager) : FlightPlanManager :=
  { st with active_plan := none, current_leg_index := 0 }

/-- FlightPlanManager.get_current_leg. -/
def get_current_leg (st : FlightPlanManager) :
    Option (FlightPlanWaypoint × FlightPlanWaypoint) :=
  match st.active_plan with
  | none => none
  | some plan =>
    if plan.waypoints.isEmpty then none
    else if st.current_leg_index ≥ plan.waypoints.length - 1 then none
    else
      match plan.waypoints.get? st.current_leg_index,
            plan.waypoints.get? (st.current_leg_index + 1) with
      | some s, some e => some (s, e)
      | _, _ => none

/-- FlightPlanManager.advance_to_next_leg: fail when no active plan, when the
waypoint list is empty or when already at end of route; otherwise increment
current_leg_index by one. -/
def advance_to_next_leg (st : FlightPlanManager) : Bool × FlightPlanManager :=
  match st.active_plan with
  | none => (false, st)
  | some plan =>
    if plan.waypoints.isEmpty then (false, st)
    else if st.current_leg_index ≥ plan.waypoints.length - 1 then (false, st)
    else (true, { st with current_leg_index := st.current_leg_index + 1 })

/-- FlightPlanManager.is_end_of_route. -/
def is_end_of_route (st : FlightPlanManager) : Bool :=
  match st.active_plan with
  | none => true
  | some plan =>
    if plan.waypoints.isEmpty then true
    else decide (st.current_leg_index ≥ plan.waypoints.length - 1)

/-- Snapshot constructor used by insert_waypoint and create_flight_plan:
FlightPlanWaypoint(identifier=w.identifier, latitude=w.latitude,
longitude=w.longitude, waypoint_type=w.waypoint_type). -/
def snapshot (w : Waypoint) : FlightPlanWaypoint :=
  { identifier := w.identifier
    latitude := w.latitude
    longitude := w.longitude
    waypoint_type := w.waypoint_type }

/-- Python list.insert(i, x): a negative index counts from the end, then the
index is clamped into [0, len] and x is inserted before it. Never raises. -/
def pyInsert (l : List FlightPlanWaypoint) (i : Int) (x : FlightPlanWaypoint) :
    List FlightPlanWaypoint :=
  let n : Int := l.length
  let j : Int := if i < 0 then i + n else i
  let j : Int := max j 0
  let j : Int := min j n
  l.take j.toNat ++ x :: l.drop j.toNat

/-- FlightPlanManager.insert_waypoint: fail when no active plan or when the
identifier does not resolve; otherwise insert the snapshot with Python
list.insert semantics and return True. The leg index is never touched. -/
def insert_waypoint (db : NavigationDatabase) (st : FlightPlanManager)
    (wp_id : String) (position : Int) : Bool × FlightPlanManager :=
  match st.active_plan with
  | none => (false, st)
  | some plan =>
    match db.find_waypoint wp_id with
    | none => (false, st)
    | some waypoint =>
      let fp_waypoint := snapshot waypoint
      let newPlan := { plan with waypoints := pyInsert plan.waypoints position fp_waypoint }
      (true, { st with active_plan := some newPlan })

/-- FlightPlanManager.delete_waypoint: fail when no active plan or empty
waypoint list; for 0 <= position < len remove the waypoint at position and
decrement the leg index when position <= current_leg_index > 0; out-of-range
positions fail without a state change. -/
def delete_waypoint (st : FlightPlanManager) (position : Int) :
    Bool × FlightPlanManager :=
  match st.active_plan with
  | none => (false, st)
  | some plan =>
    if plan.waypoints.isEmpty then (false, st)
    else if 0 ≤ position ∧ position < plan.waypoints.length then
      let p := position.toNat
      let newIdx :=
        if p ≤ st.current_leg_index ∧ 0 < st.current_leg_index then
          st.current_leg_index - 1
        else st.current_leg_index
      (true, { st with
        active_plan := some { plan with waypoints := plan.waypoints.eraseIdx p },
        current_leg_index := newIdx })
    else (false, st)

/-- FlightPlanManager.modify_waypoint: partial update of altitude/speed at an
in-range position. -/
def modify_waypoint (st : FlightPlanManager) (position : Int)
    (new_altitude : Option Int) (new_speed : Option Int) : Bool × FlightPlanManager :=
  match st.active_plan with
  | none => (false, st)
  | some plan =>
    if plan.waypoints.isEmpty then (false, st)
    else if 0 ≤ position ∧ position < plan.waypoints.length then
      let p := position.toNat
      match plan.waypoints.get? p with
      | none => (false, st)
      | some w =>
        let alt := (match new_altitude with
                    | some a => some a
                    | none => w.altitude)
        let spd := (match new_speed with
                    | some s => some s
                    | none => w.speed)
        let w := { w with altitude := alt, speed := spd }
        let newPlan := { plan with waypoints := plan.waypoints.set p w }
        (true, { st with active_plan := some newPlan })
    else (false, st)

/-- The airway-token heuristic of create_flight_plan:
element.startswith(("J", "V", "Q", "T")). -/
def isAirwayToken (element : String) : Bool :=
  element.startsWith "J" || element.startsWith "V" ||
  element.startsWith "Q" || element.startsWith "T"

/-- FlightPlanManager.expand_airway: resolve the airway into snapshot
waypoints tagged airway_waypoint. -/
def expand_airway (db : NavigationDatabase) (airway_id : String) :
    List FlightPlanWaypoint :=
  (db.get_airway_waypoints airway_id).map
    (fun w => { identifier := w.identifier
                latitude := w.latitude
                longitude := w.longitude
                waypoint_type := "airway_waypoint" })

/-- The route loop of create_flight_plan: airway tokens are expanded, other
tokens are resolved individually, unresolvable tokens are silently skipped. -/
def routeWaypoints (db : NavigationDatabase) (route : List String) :
    List FlightPlanWaypoint :=
  route.flatMap (fun element =>
    if isAirwayToken element then expand_airway db element
    else
      match db.find_waypoint element with
      | some waypoint => [snapshot waypoint]
      | none => [])

/-- FlightPlanManager.create_flight_plan: departure and arrival are resolved
and appended when found (and silently skipped when not), the route tokens are
processed in between, the plan is stored in the flight_plans dictionary and
returned. The body cannot raise, so the None branch of the source's
try/except is unreachable. -/
def create_flight_plan (db : NavigationDatabase) (st : FlightPlanManager)
    (name departure arrival : String) (route : List String)
    (cruise_alt : Int := 35000) (cruise_speed : Int := 450) :
    Option FlightPlan × FlightPlanManager :=
  let depPart : List FlightPlanWaypoint :=
    match db.find_waypoint departure with
    | some w => [snapshot w]
    | none => []
  let arrPart : List FlightPlanWaypoint :=
    match db.find_waypoint arrival with
    | some w => [snapshot w]
    | none => []
  let waypoints := depPart ++ routeWaypoints db route ++ arrPart
  let flight_plan : FlightPlan :=
    { name := name
      departure := departure
      arrival := arrival
      waypoints := waypoints
      cruise_altitude := cruise_alt
      cruise_speed := cruise_speed }
  (some flight_plan, { st with flight_plans := dictSet st.flight_plans name flight_plan })

/-!
## route_optimizer.py

RouteOptimizer._calculate_distance is the haversine over IEEE-754 doubles;
it is abstracted as an explicit parameter
dist : FlightPlanWaypoint → FlightPlanWaypoint → ℚ of every routine below,
so all theorems hold for every distance function, the source's haversine
included.
-/

/-- Stand-in for the constraints dictionary Optional[Dict[str, Any]]; none of
the three optimization algorithms ever reads it. -/
def Constraints : Type := List (String × String)

/-- OptimizationResult of route_optimizer.py. -/
structure OptimizationResult where
  optimized_plan : FlightPlan
  original_distance : ℚ
  optimized_distance : ℚ
  distance_saved : ℚ
  time_saved : ℚ
  fuel_saved : ℚ
deriving Repr

/-- The inner for-loop of _nearest_neighbor_optimization: scan the remaining
waypoints from index i keeping the best (index, distance) pair, updating only
on a strictly smaller distance. -/
def nearestAux (f : FlightPlanWaypoint → ℚ) :
    Nat × ℚ → Nat → List FlightPlanWaypoint → Nat × ℚ
  | best, _, [] => best
  | best, i, w :: ws =>
    nearestAux f (if f w < best.2 then (i, f w) else best) (i + 1) ws

/-- nearest_idx / nearest_distance computation of the while-loop body:
initialize with remaining[0] and scan remaining[1:] from index 1. -/
def findNearest (f : FlightPlanWaypoint → ℚ) (x : FlightPlanWaypoint)
    (xs : List FlightPlanWaypoint) : Nat × ℚ :=
  nearestAux f (0, f x) 1 xs

/-- The while-loop of _nearest_neighbor_optimization: repeatedly pop the
waypoint found by the scan and continue from it. The loop runs once per
remaining waypoint; fuel equal to the length of the remaining list makes the
recursion structural. -/
def nnLoop (dist : FlightPlanWaypoint → FlightPlanWaypoint → ℚ) :
    Nat → FlightPlanWaypoint → List FlightPlanWaypoint → List FlightPlanWaypoint
  | 0, _, _ => []
  | _ + 1, _, [] => []
  | n + 1, cur, x :: xs =>
    let k := (findNearest (dist cur) x xs).1
    let w := (x :: xs).getD k x
    w :: nnLoop dist n w ((x :: xs).eraseIdx k)

/-- RouteOptimizer._nearest_neighbor_optimization (the end parameter is
accepted and ignored, exactly as in the source). -/
def nearest_neighbor_optimization (dist : FlightPlanWaypoint → FlightPlanWaypoint → ℚ)
    (start : FlightPlanWaypoint) (endWp : FlightPlanWaypoint)
    (intermediate : List FlightPlanWaypoint) : List FlightPlanWaypoint :=
  match intermediate with
  | [] => []
  | [w] => [w]
  | _ => nnLoop dist intermediate.length start intermediate

/-- RouteOptimizer._optimize_shortest_distance. -/
def optimize_shortest_distance (dist : FlightPlanWaypoint → FlightPlanWaypoint → ℚ)
    (waypoints : List FlightPlanWaypoint) (constraints : Option Constraints := none) :
    List FlightPlanWaypoint :=
  if waypoints.length ≤ 2 then waypoints
  else
    match waypoints with
    | [] => []
    | departure :: rest =>
      let arrival := rest.getLastD departure
      let intermediate := rest.dropLast
      if intermediate.length ≤ 1 then waypoints
      else departure :: nearest_neighbor_optimization dist departure arrival intermediate
             ++ [arrival]

/-- RouteOptimizer._optimize_fuel_efficient: delegates to the
shortest-distance heuristic. -/
def optimize_fuel_efficient (dist : FlightPlanWaypoint → FlightPlanWaypoint → ℚ)
    (waypoints : List FlightPlanWaypoint) (constraints : Option Constraints := none) :
    List FlightPlanWaypoint :=
  optimize_shortest_distance dist waypoints constraints

/-- RouteOptimizer._optimize_time_efficient: delegates to the
shortest-distance heuristic. -/
def optimize_time_efficient (dist : FlightPlanWaypoint → FlightPlanWaypoint → ℚ)
    (waypoints : List FlightPlanWaypoint) (constraints : Option Constraints := none) :
    List FlightPlanWaypoint :=
  optimize_shortest_distance dist waypoints constraints

/-- RouteOptimizer._calculate_total_distance: sum of the distances of the
consecutive pairs; fewer than two waypoints give 0. -/
def calculate_total_distance (dist : FlightPlanWaypoint → FlightPlanWaypoint → ℚ) :
    List FlightPlanWaypoint → ℚ
  | [] => 0
  | [_] => 0
  | a :: b :: rest => dist a b + calculate_total_distance dist (b :: rest)

/-- RouteOptimizer._estimate_time_savings. -/
def estimate_time_savings (distance_saved : ℚ) (cruise_speed : Int) : ℚ :=
  if cruise_speed ≤ 0 then 0
  else distance_saved / ((cruise_speed : ℚ) / 60)

/-- RouteOptimizer._estimate_fuel_savings. -/
def estimate_fuel_savings (distance_saved : ℚ) (time_saved : ℚ) : ℚ :=
  time_saved * (200 / 60)

/-- The algorithm-name dispatch of RouteOptimizer.optimize_flight_plan: the
optimization_algorithms dictionary maps the three names to the three methods;
an unknown name raises ValueError, modelled as none. -/
def algorithmFor (dist : FlightPlanWaypoint → FlightPlanWaypoint → ℚ)
    (algorithm : String) :
    Option (List FlightPlanWaypoint → Option Constraints → List FlightPlanWaypoint) :=
  match algorithm with
  | "shortest_distance" => some (fun w c => optimize_shortest_distance dist w c)
  | "fuel_efficient" => some (fun w c => optimize_fuel_efficient dist w c)
  | "time_efficient" => some (fun w c => optimize_time_efficient dist w c)
  | _ => none

/-- RouteOptimizer.optimize_flight_plan: dispatch on the algorithm name,
rebuild the plan under the name suffixed _OPTIMIZED (route_distance and
estimated_time take their dataclass defaults again) and attach the distance,
time and fuel deltas. -/
def optimize_flight_plan (dist : FlightPlanWaypoint → FlightPlanWaypoint → ℚ)
    (flight_plan : FlightPlan) (algorithm : String := "shortest_distance")
    (constraints : Option Constraints := none) : Option OptimizationResult :=
  match algorithmFor dist algorithm with
  | none => none
  | some optimization_func =>
    let original_distance := calculate_total_distance dist flight_plan.waypoints
    let optimized_waypoints := optimization_func flight_plan.waypoints constraints
    let optimized_plan : FlightPlan :=
      { name := flight_plan.name ++ "_OPTIMIZED"
        departure := flight_plan.departure
        arrival := flight_plan.arrival
        waypoints := optimized_waypoints
        cruise_altitude := flight_plan.cruise_altitude
        cruise_speed := flight_plan.cruise_speed }
    let optimized_distance := calculate_total_distance dist optimized_waypoints
    let distance_saved := original_distance - optimized_distance
    let time_saved := estimate_time_savings distance_saved flight_plan.cruise_speed
    let fuel_saved := estimate_fuel_savings distance_saved time_saved
    some { optimized_plan := optimized_plan
           original_distance := original_distance
           optimized_distance := optimized_distance
           distance_saved := distance_saved
           time_saved := time_saved
           fuel_saved := fuel_saved }

/-!
## Specification-side greedy route (for the refinement statement of the
nearest-neighbor heuristic)

The spec describes the heuristic as: starting from the departure, repeatedly
pick the unvisited intermediate waypoint nearest by distance, taking the
first-encountered (lowest-index) waypoint on ties, remove it and continue
from it. firstMinIdx computes the lowest index attaining the minimum
distance; greedyRouteSpec iterates it.
-/

/-- Lowest index of a minimal element of f over the list (0 on the empty
list). -/
def firstMinIdx (f : FlightPlanWaypoint → ℚ) : List FlightPlanWaypoint → Nat
  | [] => 0
  | [_] => 0
  | x :: y :: rest =>
    let j := firstMinIdx f (y :: rest)
    if f ((y :: rest).getD j x) < f x then j + 1 else 0

/-- The greedy route of the specification: repeatedly take the
first-encountered nearest unvisited waypoint. -/
def greedyRouteSpec (dist : FlightPlanWaypoint → FlightPlanWaypoint → ℚ) :
    Nat → FlightPlanWaypoint → List FlightPlanWaypoint → List FlightPlanWaypoint
  | 0, _, _ => []
  | _ + 1, _, [] => []
  | n + 1, cur, x :: xs =>
    let k := firstMinIdx (dist cur) (x :: xs)
    let w := (x :: xs).getD k x
    w :: greedyRouteSpec dist n w ((x :: xs).eraseIdx k)

/-- k is the lowest index of l attaining the minimum of f: the element at k
is a minimum and every strictly earlier element is strictly larger. This is
the bridge between the source's scanning loop and the spec's greedy rule. -/
def IsFirstMinIdx (f : FlightPlanWaypoint → ℚ) (l : List FlightPlanWaypoint)
    (k : Nat) : Prop :=
  ∃ hk : k < l.length,
    (∀ j (hj : j < l.length), f (l.get ⟨k, hk⟩) ≤ f (l.get ⟨j, hj⟩)) ∧
    (∀ j (hj : j < l.length), j < k → f (l.get ⟨k, hk⟩) < f (l.get ⟨j, hj⟩))

/-- The everywhere-zero distance function, used by concrete witnesses. -/
def zeroDist : FlightPlanWaypoint → FlightPlanWaypoint → ℚ := fun _ _ => 0

/-!
## waypoint_database.py

calculate_distance is the haversine over doubles and is abstracted as a
parameter dist lat1 lon1 lat2 lon2, exactly as it is called in
find_waypoints_in_radius.
-/

/-- WaypointDatabase.find_waypoints_in_radius: walk every stored waypoint in
table order, pair it with its distance from the query point, keep the pairs
with distance <= radius and sort them ascending by distance (Python
list.sort is a stable mergesort; List.mergeSort is as well). -/
def find_waypoints_in_radius (dist : ℚ → ℚ → ℚ → ℚ → ℚ)
    (db : List Waypoint) (center_lat center_lon radius_nm : ℚ) :
    List (Waypoint × ℚ) :=
  let waypoints_with_distance :=
    (db.map (fun w => (w, dist center_lat center_lon w.latitude w.longitude))).filter
      (fun p => p.2 ≤ radius_nm)
  waypoints_with_distance.mergeSort (fun a b => a.2 ≤ b.2)

/-- n successive calls of advance_to_next_leg (only the state is kept, the
returned flag of the intermediate calls is discarded). -/
def advanceN : Nat → FlightPlanManager → FlightPlanManager
  | 0, st => st
  | n + 1, st => (advance_to_next_leg (advanceN n st)).2

/-!
## Concrete fixtures

Small concrete inputs used by witnesses and counterexamples; coordinates are
small integers to keep kernel evaluation cheap, which is allowed because the
operations under test never interpret the coordinates.
-/

def wpKSFO : Waypoint :=
  { identifier := "KSFO", latitude := 37, longitude := -122, waypoint_type := "AIRPORT" }

def wpSFO : Waypoint :=
  { identifier := "SFO", latitude := 38, longitude := -123, waypoint_type := "VOR" }

def wpKOAK : Waypoint :=
  { identifier := "KOAK", latitude := 39, longitude := -124, waypoint_type := "AIRPORT" }

def wpINSERT : Waypoint :=
  { identifier := "INSERT", latitude := 36, longitude := -121, waypoint_type := "waypoint" }

def exDb : NavigationDatabase :=
  { waypoints := [wpKSFO, wpSFO, wpKOAK, wpINSERT] }

def emptyDb : NavigationDatabase := { waypoints := [] }

def exManager : FlightPlanManager := {}

/-- A three-waypoint plan KSFO - SFO - KOAK. -/
def exPlan : FlightPlan :=
  { name := "TEST"
    departure := "KSFO"
    arrival := "KOAK"
    waypoints := [snapshot wpKSFO, snapshot wpSFO, snapshot wpKOAK] }

/-- The junk plan used as Option default when destructuring concrete runs. -/
def junkPlan : FlightPlan :=
  { name := "", departure := "", arrival := "", waypoints := [] }

/-- The plan produced by the manager for the two-waypoint route KSFO - KOAK
over exDb. -/
def exCreatedPlan : FlightPlan :=
  ((create_flight_plan exDb exManager "P1" "KSFO" "KOAK" []).1).getD junkPlan

end FMS

namespace FMS

/-!
## Helper lemmas (shared)
-/

lemma isEmpty_false_of_ne_nil {l : List FlightPlanWaypoint} (h : l ≠ []) :
    l.isEmpty = false := by
  cases l with
  | nil => exact absurd rfl h
  | cons a t => rfl

/-- A failed advance_to_next_leg never changes the state. -/
lemma advance_fail_state (st : FlightPlanManager)
    (h : (advance_to_next_leg st).1 = false) : (advance_to_next_leg st).2 = st := by
  unfold advance_to_next_leg at h ⊢
  cases hp : st.active_plan with
  | none => rfl
  | some plan =>
    rw [hp] at h
    by_cases he : plan.waypoints.isEmpty
    · simp [he]
    · simp only [he, Bool.false_eq_true, if_false] at h ⊢
      by_cases hend : st.current_leg_index ≥ plan.waypoints.length - 1
      · simp [hend]
      · simp [hend] at h

/-- advanceN from a fresh cursor walks the index up one leg per call while it
stays within the route. -/
lemma advanceN_fresh (st : FlightPlanManager) (plan : FlightPlan)
    (h : st.active_plan = some plan) (h0 : st.current_leg_index = 0) :
    ∀ k, k ≤ plan.waypoints.length - 1 →
      advanceN k st = { st with current_leg_index := k } := by
  intro k
  induction k with
  | zero =>
    intro _
    obtain ⟨a, c, f⟩ := st
    simp only at h0
    subst h0
    rfl
  | succ k ih =>
    intro hk
    have hk' : k ≤ plan.waypoints.length - 1 := Nat.le_of_succ_le hk
    have hlen : k + 1 ≤ plan.waypoints.length - 1 := hk
    have hne : plan.waypoints ≠ [] := by
      intro hnil
      rw [hnil] at hlen
      simp at hlen
    show (advance_to_next_leg (advanceN k st)).2 = _
    rw [ih hk']
    unfold advance_to_next_leg
    simp only [h]
    rw [isEmpty_false_of_ne_nil hne]
    simp only [Bool.false_eq_true, if_false]
    have hklt : ¬ (k ≥ plan.waypoints.length - 1) := by omega
    simp [hklt]

/-!
### Nearest-neighbor scan: first-minimum characterization
-/

lemma nearestAux_spec (f : FlightPlanWaypoint → ℚ) (l : List FlightPlanWaypoint) : ∀ (bi i : Nat) (bd : ℚ),
    (nearestAux f (bi, bd) i l = (bi, bd) ∧
      ∀ j (hj : j < l.length), bd ≤ f (l.get ⟨j, hj⟩)) ∨
    (∃ j, ∃ hj : j < l.length,
      nearestAux f (bi, bd) i l = (i + j, f (l.get ⟨j, hj⟩)) ∧
      f (l.get ⟨j, hj⟩) < bd ∧
      (∀ j2 (hj2 : j2 < l.length), f (l.get ⟨j, hj⟩) ≤ f (l.get ⟨j2, hj2⟩)) ∧
      (∀ j2 (hj2 : j2 < l.length), j2 < j → f (l.get ⟨j, hj⟩) < f (l.get ⟨j2, hj2⟩))) := by
  induction l with
  | nil =>
    intro bi i bd
    left
    exact ⟨rfl, fun j hj => absurd hj (by simp)⟩
  | cons w ws ih =>
    intro bi i bd
    simp only [nearestAux]
    by_cases hw : f w < bd
    · rw [if_pos hw]
      rcases ih i (i + 1) (f w) with ⟨heq, hmin⟩ | ⟨j, hj, heq, hlt, hmin, hfirst⟩
      · right
        refine ⟨0, by simp, ?_, ?_, ?_, ?_⟩
        · simpa using heq
        · simpa using hw
        · intro j2 hj2
          cases j2 with
          | zero => exact le_refl _
          | succ k => simpa using hmin k (by simp at hj2; omega)
        · intro j2 hj2 hlt2
          exact absurd hlt2 (Nat.not_lt_zero _)
      · right
        refine ⟨j + 1, by simp; omega, ?_, ?_, ?_, ?_⟩
        · show nearestAux f (i, f w) (i + 1) ws = (i + (j + 1), f ((w :: ws).get ⟨j + 1, _⟩))
          rw [heq, show i + (j + 1) = i + 1 + j from by omega]
          rfl
        · simpa using lt_trans hlt hw
        · intro j2 hj2
          cases j2 with
          | zero => simpa using le_of_lt hlt
          | succ k => simpa using hmin k (by simp at hj2; omega)
        · intro j2 hj2 hlt2
          cases j2 with
          | zero => simpa using hlt
          | succ k => simpa using hfirst k (by simp at hj2; omega) (by omega)
    · rw [if_neg hw]
      rcases ih bi (i + 1) bd with ⟨heq, hmin⟩ | ⟨j, hj, heq, hlt, hmin, hfirst⟩
      · left
        refine ⟨heq, ?_⟩
        intro j hj
        cases j with
        | zero => simpa using le_of_not_lt hw
        | succ k => simpa using hmin k (by simp at hj; omega)
      · right
        refine ⟨j + 1, by simp; omega, ?_, ?_, ?_, ?_⟩
        · show nearestAux f (bi, bd) (i + 1) ws = (i + (j + 1), f ((w :: ws).get ⟨j + 1, _⟩))
          rw [heq, show i + (j + 1) = i + 1 + j from by omega]
          rfl
        · simpa using hlt
        · intro j2 hj2
          cases j2 with
          | zero => simpa using le_of_lt (lt_of_lt_of_le hlt (le_of_not_lt hw))
          | succ k => simpa using hmin k (by simp at hj2; omega)
        · intro j2 hj2 hlt2
          cases j2 with
          | zero => simpa using lt_of_lt_of_le hlt (le_of_not_lt hw)
          | succ k => simpa using hfirst k (by simp at hj2; omega) (by omega)

lemma findNearest_isFirstMin (f : FlightPlanWaypoint → ℚ) (x : FlightPlanWaypoint) (xs : List FlightPlanWaypoint) :
    IsFirstMinIdx f (x :: xs) (findNearest f x xs).1 := by
  unfold findNearest
  rcases nearestAux_spec f xs 0 1 (f x) with ⟨heq, hmin⟩ | ⟨j, hj, heq, hlt, hmin, hfirst⟩
  · rw [heq]
    refine ⟨by simp, ?_, ?_⟩
    · intro j hjl
      cases j with
      | zero => exact le_refl _
      | succ k => simpa using hmin k (by simp at hjl; omega)
    · intro j hjl hlt2
      exact absurd hlt2 (Nat.not_lt_zero _)
  · rw [heq, show (1 : Nat) + j = j + 1 from by omega]
    refine ⟨by simp; omega, ?_, ?_⟩
    · intro j2 hj2
      cases j2 with
      | zero => simpa using le_of_lt hlt
      | succ k => simpa using hmin k (by simp at hj2; omega)
    · intro j2 hj2 hlt2
      cases j2 with
      | zero => simpa using hlt
      | succ k => simpa using hfirst k (by simp at hj2; omega) (by omega)

lemma getD_eq_get (l : List FlightPlanWaypoint) (k : Nat) (d : FlightPlanWaypoint) (h : k < l.length) :
    l.getD k d = l.get ⟨k, h⟩ := by
  induction l generalizing k with
  | nil => simp at h
  | cons a t ih =>
    cases k with
    | zero => rfl
    | succ m => exact ih m (by simp at h; omega)

lemma firstMinIdx_isFirstMin (f : FlightPlanWaypoint → ℚ) (x : FlightPlanWaypoint) (xs : List FlightPlanWaypoint) :
    IsFirstMinIdx f (x :: xs) (firstMinIdx f (x :: xs)) := by
  induction xs generalizing x with
  | nil =>
    refine ⟨by simp [firstMinIdx], ?_, ?_⟩
    · intro j hj
      cases j with
      | zero => exact le_refl _
      | succ k => simp at hj
    · intro j hj hlt
      simp [firstMinIdx] at hlt
  | cons y rest ih =>
    obtain ⟨hkr, hminr, hfirstr⟩ := ih y
    show IsFirstMinIdx f (x :: y :: rest)
      (if f ((y :: rest).getD (firstMinIdx f (y :: rest)) x) < f x
       then firstMinIdx f (y :: rest) + 1 else 0)
    rw [getD_eq_get _ _ _ hkr]
    by_cases hc : f ((y :: rest).get ⟨firstMinIdx f (y :: rest), hkr⟩) < f x
    · rw [if_pos hc]
      refine ⟨by simp at hkr ⊢; omega, ?_, ?_⟩
      · intro j hj
        cases j with
        | zero => simpa using le_of_lt hc
        | succ k => simpa using hminr k (by simp at hj ⊢; omega)
      · intro j hj hlt
        cases j with
        | zero => simpa using hc
        | succ k => simpa using hfirstr k (by simp at hj ⊢; omega) (by omega)
    · rw [if_neg hc]
      refine ⟨by simp, ?_, ?_⟩
      · intro j hj
        cases j with
        | zero => exact le_refl _
        | succ k =>
          have h1 : f x ≤ f ((y :: rest).get ⟨firstMinIdx f (y :: rest), hkr⟩) :=
            le_of_not_lt hc
          have h2 := hminr k (by simp at hj ⊢; omega)
          simpa using le_trans h1 h2
      · intro j hj hlt
        exact absurd hlt (Nat.not_lt_zero _)

lemma isFirstMin_unique (f : FlightPlanWaypoint → ℚ) (l : List FlightPlanWaypoint) (k1 k2 : Nat)
    (h1 : IsFirstMinIdx f l k1) (h2 : IsFirstMinIdx f l k2) : k1 = k2 := by
  obtain ⟨hk1, hmin1, hfirst1⟩ := h1
  obtain ⟨hk2, hmin2, hfirst2⟩ := h2
  by_contra hne
  rcases Nat.lt_or_ge k1 k2 with hlt | hge
  · have ha := hfirst2 k1 hk1 hlt
    have hb := hmin1 k2 hk2
    exact absurd (lt_of_le_of_lt hb ha) (lt_irrefl _)
  · have hlt : k2 < k1 := by omega
    have ha := hfirst1 k2 hk2 hlt
    have hb := hmin2 k1 hk1
    exact absurd (lt_of_le_of_lt hb ha) (lt_irrefl _)

lemma findNearest_eq_firstMinIdx (f : FlightPlanWaypoint → ℚ) (x : FlightPlanWaypoint) (xs : List FlightPlanWaypoint) :
    (findNearest f x xs).1 = firstMinIdx f (x :: xs) :=
  isFirstMin_unique f (x :: xs) _ _ (findNearest_isFirstMin f x xs)
    (firstMinIdx_isFirstMin f x xs)

lemma firstMinIdx_lt_length (f : FlightPlanWaypoint → ℚ) (x : FlightPlanWaypoint) (xs : List FlightPlanWaypoint) :
    firstMinIdx f (x :: xs) < (x :: xs).length :=
  (firstMinIdx_isFirstMin f x xs).1

lemma nnLoop_eq_greedy (dist : FlightPlanWaypoint → FlightPlanWaypoint → ℚ) :
    ∀ (n : Nat) (cur : FlightPlanWaypoint) (l : List FlightPlanWaypoint),
      nnLoop dist n cur l = greedyRouteSpec dist n cur l := by
  intro n
  induction n with
  | zero => intro cur l; rfl
  | succ n ih =>
    intro cur l
    cases l with
    | nil => rfl
    | cons x xs =>
      show ((x :: xs).getD (findNearest (dist cur) x xs).1 x)
          :: nnLoop dist n _ ((x :: xs).eraseIdx (findNearest (dist cur) x xs).1) = _
      rw [findNearest_eq_firstMinIdx]
      exact congrArg _ (ih _ _)

lemma getD_cons_eraseIdx_perm (l : List FlightPlanWaypoint) (k : Nat) (hk : k < l.length) (d : FlightPlanWaypoint) :
    (l.getD k d :: l.eraseIdx k).Perm l := by
  induction l generalizing k with
  | nil => simp at hk
  | cons a t ih =>
    cases k with
    | zero => simp [List.eraseIdx]
    | succ m =>
      have hm : m < t.length := by simp at hk; omega
      show (t.getD m d :: a :: t.eraseIdx m).Perm (a :: t)
      have h1 : (t.getD m d :: a :: t.eraseIdx m).Perm (a :: t.getD m d :: t.eraseIdx m) :=
        List.Perm.swap a (t.getD m d) _
      exact h1.trans ((ih m hm).cons a)

lemma greedy_perm (dist : FlightPlanWaypoint → FlightPlanWaypoint → ℚ) :
    ∀ (n : Nat) (cur : FlightPlanWaypoint) (l : List FlightPlanWaypoint), l.length ≤ n →
      (greedyRouteSpec dist n cur l).Perm l := by
  intro n
  induction n with
  | zero =>
    intro cur l hl
    have : l = [] := List.length_eq_zero.mp (by omega)
    subst this
    exact List.Perm.refl _
  | succ n ih =>
    intro cur l hl
    cases l with
    | nil => exact List.Perm.refl _
    | cons x xs =>
      have hk := firstMinIdx_lt_length (dist cur) x xs
      show ((x :: xs).getD (firstMinIdx (dist cur) (x :: xs)) x
          :: greedyRouteSpec dist n _ ((x :: xs).eraseIdx (firstMinIdx (dist cur) (x :: xs)))).Perm
        (x :: xs)
      have hlen : ((x :: xs).eraseIdx (firstMinIdx (dist cur) (x :: xs))).length ≤ n := by
        rw [List.length_eraseIdx]
        simp only [hk, if_true]
        simp at hl ⊢
        omega
      have hrec := ih ((x :: xs).getD (firstMinIdx (dist cur) (x :: xs)) x) _ hlen
      exact ((hrec.cons _).trans (getD_cons_eraseIdx_perm (x :: xs) _ hk x))

end FMS

namespace FMS

/-!
## Claim theorems
-/

/-- C1: deleting at an in-range position of an active plan removes exactly the
waypoint at that position, returns true, and afterwards the cursor equals
c - 1 when position <= c and c > 0, and c otherwise (in particular it stays 0
when deleting position 0 with c = 0, and is unchanged when deleting strictly
behind it). -/
theorem delete_waypoint_removes_and_adjusts_cursor
    (st : FlightPlanManager) (plan : FlightPlan) (position : Int)
    (hplan : st.active_plan = some plan)
    (hcursor : (st.current_leg_index : Int) ≤ (plan.waypoints.length : Int) - 1)
    (hpos0 : 0 ≤ position)
    (hpos1 : position ≤ (plan.waypoints.length : Int) - 1) :
    (delete_waypoint st position).1 = true ∧
    (delete_waypoint st position).2.active_plan =
      some { plan with waypoints := plan.waypoints.eraseIdx position.toNat } ∧
    (delete_waypoint st position).2.current_leg_index =
      (if position ≤ (st.current_leg_index : Int) ∧ 0 < st.current_leg_index
       then st.current_leg_index - 1 else st.current_leg_index) := by
  have hlt : position < (plan.waypoints.length : Int) := by omega
  have hne : plan.waypoints ≠ [] := by
    intro hnil
    rw [hnil] at hpos1
    simp at hpos1
    omega
  unfold delete_waypoint
  rw [hplan]
  simp only [isEmpty_false_of_ne_nil hne, Bool.false_eq_true, if_false]
  rw [if_pos ⟨hpos0, hlt⟩]
  refine ⟨rfl, rfl, ?_⟩
  by_cases h1 : position ≤ (st.current_leg_index : Int)
  · by_cases h2 : 0 < st.current_leg_index
    · rw [if_pos ⟨Int.toNat_le.mpr h1, h2⟩, if_pos ⟨h1, h2⟩]
    · rw [if_neg (fun hc => h2 hc.2), if_neg (fun hc => h2 hc.2)]
  · have h1' : ¬ position.toNat ≤ st.current_leg_index := fun hc => h1 (Int.toNat_le.mp hc)
    rw [if_neg (fun hc => h1' hc.1), if_neg (fun hc => h1 hc.1)]

/-- C1 witness: deleting position 1 of the three-waypoint plan with cursor 1
succeeds and moves the cursor to 0. -/
theorem delete_waypoint_removes_and_adjusts_cursor_witness :
    (delete_waypoint ((advance_to_next_leg (set_active_plan exManager exPlan).2).2) 1).1 = true ∧
    (delete_waypoint ((advance_to_next_leg (set_active_plan exManager exPlan).2).2) 1).2.active_plan =
      some { exPlan with waypoints := exPlan.waypoints.eraseIdx 1 } ∧
    (delete_waypoint ((advance_to_next_leg (set_active_plan exManager exPlan).2).2) 1).2.current_leg_index =
      (if (1 : Int) ≤ (((advance_to_next_leg (set_active_plan exManager exPlan).2).2).current_leg_index : Int) ∧
          0 < ((advance_to_next_leg (set_active_plan exManager exPlan).2).2).current_leg_index
       then ((advance_to_next_leg (set_active_plan exManager exPlan).2).2).current_leg_index - 1
       else ((advance_to_next_leg (set_active_plan exManager exPlan).2).2).current_leg_index) :=
  delete_waypoint_removes_and_adjusts_cursor
    ((advance_to_next_leg (set_active_plan exManager exPlan).2).2) exPlan 1
    (by decide) (by decide) (by decide) (by decide)

/-- C2: advance_to_next_leg succeeds and increments the leg index by exactly
one iff a plan with a non-empty waypoint list is active and the index is
strictly below len - 1; any failing call leaves the state untouched; and from
a freshly activated plan, the first len - 1 calls all succeed, after which the
cursor sits at end of route and every further call fails with no side
effect. -/
theorem advance_to_next_leg_behavior (st : FlightPlanManager) :
    (((advance_to_next_leg st).1 = true ∧
        (advance_to_next_leg st).2.current_leg_index = st.current_leg_index + 1) ↔
      (∃ plan, st.active_plan = some plan ∧ plan.waypoints ≠ [] ∧
        st.current_leg_index < plan.waypoints.length - 1)) ∧
    ((advance_to_next_leg st).1 = true →
      (advance_to_next_leg st).2 = { st with current_leg_index := st.current_leg_index + 1 }) ∧
    ((advance_to_next_leg st).1 = false → (advance_to_next_leg st).2 = st) ∧
    (∀ plan : FlightPlan, plan.waypoints ≠ [] →
      (∀ k, k < plan.waypoints.length - 1 →
        (advance_to_next_leg (advanceN k (set_active_plan st plan).2)).1 = true) ∧
      (advanceN (plan.waypoints.length - 1) (set_active_plan st plan).2).current_leg_index =
        plan.waypoints.length - 1 ∧
      is_end_of_route (advanceN (plan.waypoints.length - 1) (set_active_plan st plan).2) = true ∧
      (advance_to_next_leg (advanceN (plan.waypoints.length - 1) (set_active_plan st plan).2)).1
        = false ∧
      (advance_to_next_leg (advanceN (plan.waypoints.length - 1) (set_active_plan st plan).2)).2
        = advanceN (plan.waypoints.length - 1) (set_active_plan st plan).2) := by
  refine ⟨?_, ?_, advance_fail_state st, ?_⟩
  · unfold advance_to_next_leg
    cases hp : st.active_plan with
    | none => simp
    | some plan =>
      simp only [Option.some.injEq]
      by_cases he : plan.waypoints.isEmpty
      · have : plan.waypoints = [] := by
          cases hw : plan.waypoints
          · rfl
          · rw [hw] at he; simp at he
        simp only [he, if_true]
        constructor
        · intro hc; simp at hc
        · rintro ⟨p, rfl, hne, _⟩
          exact absurd this hne
      · have hne : plan.waypoints ≠ [] := by
          intro hnil; rw [hnil] at he; simp at he
        simp only [he, Bool.false_eq_true, if_false]
        by_cases hend : st.current_leg_index ≥ plan.waypoints.length - 1
        · simp only [hend, if_true]
          constructor
          · intro hc; simp at hc
          · rintro ⟨p, hpe, _, hlt⟩
            cases hpe
            omega
        · simp only [hend, if_false]
          constructor
          · intro _
            exact ⟨plan, rfl, hne, by omega⟩
          · intro _
            refine ⟨?_, ?_⟩ <;> first | rfl | trivial
  · unfold advance_to_next_leg
    cases hp : st.active_plan with
    | none => intro hc; simp at hc
    | some plan =>
      by_cases he : plan.waypoints.isEmpty
      · simp [he]
      · simp only [he, Bool.false_eq_true, if_false]
        by_cases hend : st.current_leg_index ≥ plan.waypoints.length - 1
        · simp [hend]
        · simp [hend]
  · intro plan hne
    have hact : ((set_active_plan st plan).2).active_plan = some plan := rfl
    have hidx : ((set_active_plan st plan).2).current_leg_index = 0 := rfl
    have hN := advanceN_fresh (set_active_plan st plan).2 plan hact hidx
    refine ⟨?_, ?_, ?_, ?_, ?_⟩
    · intro k hk
      rw [hN k (by omega)]
      unfold advance_to_next_leg
      simp only [hact]
      rw [isEmpty_false_of_ne_nil hne]
      simp only [Bool.false_eq_true, if_false]
      have : ¬ (k ≥ plan.waypoints.length - 1) := by omega
      simp [this]
    · rw [hN (plan.waypoints.length - 1) le_rfl]
    · rw [hN (plan.waypoints.length - 1) le_rfl]
      unfold is_end_of_route
      simp only [hact]
      rw [isEmpty_false_of_ne_nil hne]
      simp
    · rw [hN (plan.waypoints.length - 1) le_rfl]
      unfold advance_to_next_leg
      simp only [hact]
      rw [isEmpty_false_of_ne_nil hne]
      simp
    · apply advance_fail_state
      rw [hN (plan.waypoints.length - 1) le_rfl]
      unfold advance_to_next_leg
      simp only [hact]
      rw [isEmpty_false_of_ne_nil hne]
      simp

/-- C2 witness: on the concrete three-waypoint plan, two successful advances
reach end of route and a third call fails without side effect. -/
theorem advance_to_next_leg_behavior_witness :
    (advanceN (exPlan.waypoints.length - 1) (set_active_plan exManager exPlan).2).current_leg_index =
      exPlan.waypoints.length - 1 ∧
    is_end_of_route (advanceN (exPlan.waypoints.length - 1) (set_active_plan exManager exPlan).2) = true ∧
    (advance_to_next_leg
        (advanceN (exPlan.waypoints.length - 1) (set_active_plan exManager exPlan).2)).1 = false :=
  ⟨((advance_to_next_leg_behavior exManager).2.2.2 exPlan (by decide)).2.1,
   ((advance_to_next_leg_behavior exManager).2.2.2 exPlan (by decide)).2.2.1,
   ((advance_to_next_leg_behavior exManager).2.2.2 exPlan (by decide)).2.2.2.1⟩

/-- C5: insert_waypoint with an identifier that does not resolve returns
false and leaves the whole manager state (active plan, waypoint list and
cursor included) exactly as it was. -/
theorem insert_waypoint_unknown_identifier (db : NavigationDatabase)
    (st : FlightPlanManager) (wp_id : String) (position : Int)
    (h : db.find_waypoint wp_id = none) :
    insert_waypoint db st wp_id position = (false, st) := by
  unfold insert_waypoint
  cases st.active_plan with
  | none => rfl
  | some plan => rw [h]

/-- C5 witness: inserting the unknown identifier ZZZZ into the active
three-waypoint plan fails and changes nothing. -/
theorem insert_waypoint_unknown_identifier_witness :
    insert_waypoint exDb (set_active_plan exManager exPlan).2 "ZZZZ" 1 =
      (false, (set_active_plan exManager exPlan).2) :=
  insert_waypoint_unknown_identifier exDb (set_active_plan exManager exPlan).2 "ZZZZ" 1
    (by decide)

/-- C10: insert_waypoint never touches current_leg_index, whatever the state,
identifier or position (in particular on successful insertions at or before
the cursor). -/
theorem insert_waypoint_preserves_cursor (db : NavigationDatabase)
    (st : FlightPlanManager) (wp_id : String) (position : Int) :
    ((insert_waypoint db st wp_id position).2).current_leg_index = st.current_leg_index := by
  unfold insert_waypoint
  cases st.active_plan with
  | none => rfl
  | some plan =>
    cases db.find_waypoint wp_id with
    | none => rfl
    | some w => rfl

/-- C7: optimize_flight_plan produces the same optimized waypoint sequence
under fuel_efficient and time_efficient as under shortest_distance, for every
distance function, plan and constraints argument: the three named algorithms
delegate to one heuristic. -/
theorem optimize_algorithms_agree (dist : FlightPlanWaypoint → FlightPlanWaypoint → ℚ)
    (flight_plan : FlightPlan) (constraints : Option Constraints) :
    ((optimize_flight_plan dist flight_plan "fuel_efficient" constraints).map
        (fun r => r.optimized_plan.waypoints) =
      (optimize_flight_plan dist flight_plan "shortest_distance" constraints).map
        (fun r => r.optimized_plan.waypoints)) ∧
    ((optimize_flight_plan dist flight_plan "time_efficient" constraints).map
        (fun r => r.optimized_plan.waypoints) =
      (optimize_flight_plan dist flight_plan "shortest_distance" constraints).map
        (fun r => r.optimized_plan.waypoints)) :=
  ⟨rfl, rfl⟩

/-- C3 counterexample: over the empty navigation database neither KSFO nor
KOAK resolves, yet create_flight_plan still returns a plan, not null. -/
theorem create_flight_plan_unknown_endpoint_counterexample :
    NavigationDatabase.find_waypoint emptyDb "KSFO" = none ∧
    NavigationDatabase.find_waypoint emptyDb "KOAK" = none ∧
    ((create_flight_plan emptyDb exManager "P1" "KSFO" "KOAK" []).1).isSome = true :=
  ⟨rfl, rfl, rfl⟩

/-- C3 amended: create_flight_plan always returns a plan; an unresolvable
departure or arrival is silently skipped from the waypoint sequence instead
of aborting the build. -/
theorem create_flight_plan_always_returns_plan (db : NavigationDatabase)
    (st : FlightPlanManager) (name departure arrival : String)
    (route : List String) (cruise_alt cruise_speed : Int) :
    ((create_flight_plan db st name departure arrival route cruise_alt cruise_speed).1).isSome
      = true ∧
    (db.find_waypoint departure = none → db.find_waypoint arrival = none →
      ∀ p, (create_flight_plan db st name departure arrival route cruise_alt cruise_speed).1
          = some p →
        p.waypoints = routeWaypoints db route) := by
  constructor
  · rfl
  · intro hd ha p hp
    unfold create_flight_plan at hp
    rw [hd, ha] at hp
    simp only [Option.some.injEq] at hp
    subst hp
    simp

/-- C3 amended witness: with both endpoints unresolvable and an empty route,
the returned plan's waypoint list is the (empty) route expansion. -/
theorem create_flight_plan_always_returns_plan_witness :
    ((create_flight_plan emptyDb exManager "P1" "KSFO" "KOAK" [] 35000 450).1.getD
        junkPlan).waypoints = routeWaypoints emptyDb [] :=
  (create_flight_plan_always_returns_plan emptyDb exManager "P1" "KSFO" "KOAK" [] 35000 450).2
    (by decide) (by decide) _ rfl

/-- C4 (code bug evidence): with the waypoint INSERT present in the database
and the three-waypoint plan active — the repo's own fixture in
test_invalid_position_handling — insert_waypoint("INSERT", -1) returns True
and inserts the snapshot before the last element, Python list.insert
semantics; the unit test and the spec require False for a negative
position. -/
theorem insert_waypoint_negative_position_result :
    (insert_waypoint exDb (set_active_plan exManager exPlan).2 "INSERT" (-1)).1 = true ∧
    ((insert_waypoint exDb (set_active_plan exManager exPlan).2 "INSERT" (-1)).2.active_plan.map
        (fun p => p.waypoints.map (fun w => w.identifier)))
      = some ["KSFO", "SFO", "INSERT", "KOAK"] := by
  exact ⟨rfl, rfl⟩

/-- C9 counterexample: the plan built from KSFO to KOAK, activated and then
mutated by the public operation delete_waypoint at position 0, is reachable
yet has a single waypoint (length 1 < 2) whose identifier KOAK differs from
the plan's departure KSFO. -/
theorem flight_plan_invariant_counterexample :
    (delete_waypoint (set_active_plan exManager exCreatedPlan).2 0).1 = true ∧
    ((delete_waypoint (set_active_plan exManager exCreatedPlan).2 0).2.active_plan.map
        (fun p => (p.waypoints.map (fun w => w.identifier), p.departure, p.arrival)))
      = some (["KOAK"], "KSFO", "KOAK") :=
  ⟨rfl, rfl⟩

/-- C9 amended: the structural invariant (length >= 2, first identifier =
departure, last identifier = arrival) holds for every plan as returned by
create_flight_plan when both endpoints resolve; it is not preserved by the
mutation operations (delete_waypoint at an endpoint breaks it, see the
counterexample). -/
theorem create_flight_plan_creation_invariant (db : NavigationDatabase)
    (st : FlightPlanManager) (name departure arrival : String)
    (route : List String) (cruise_alt cruise_speed : Int)
    (wd wa : Waypoint)
    (hd : db.find_waypoint departure = some wd)
    (ha : db.find_waypoint arrival = some wa) :
    ∀ p, (create_flight_plan db st name departure arrival route cruise_alt cruise_speed).1
        = some p →
      2 ≤ p.waypoints.length ∧
      p.waypoints.head?.map (fun w => w.identifier) = some departure ∧
      p.waypoints.getLast?.map (fun w => w.identifier) = some arrival := by
  intro p hp
  have hdid : wd.identifier = departure := by
    unfold NavigationDatabase.find_waypoint at hd
    have := List.find?_some hd
    exact eq_of_beq this
  have haid : wa.identifier = arrival := by
    unfold NavigationDatabase.find_waypoint at ha
    have := List.find?_some ha
    exact eq_of_beq this
  unfold create_flight_plan at hp
  rw [hd, ha] at hp
  simp only [Option.some.injEq] at hp
  subst hp
  refine ⟨?_, ?_, ?_⟩
  · simp [List.length_append]
  · simp [snapshot, hdid]
  · rw [List.getLast?_concat]
    simp [snapshot, haid]

/-- C8: for every waypoint list of length at least 2 (written a :: mid ++ [b])
and every distance function, the shortest-distance optimization pins the
departure a and arrival b in place and replaces the intermediate block by the
spec's greedy route (repeatedly the nearest unvisited intermediate waypoint,
lowest index on ties), which is a permutation of the original intermediates;
with at most one intermediate waypoint the input is returned unchanged. -/
theorem optimize_shortest_distance_greedy (dist : FlightPlanWaypoint → FlightPlanWaypoint → ℚ) (a b : FlightPlanWaypoint)
    (mid : List FlightPlanWaypoint) (constraints : Option Constraints) :
    optimize_shortest_distance dist (a :: mid ++ [b]) constraints
      = a :: greedyRouteSpec dist mid.length a mid ++ [b] ∧
    (greedyRouteSpec dist mid.length a mid).Perm mid ∧
    (mid.length ≤ 1 → optimize_shortest_distance dist (a :: mid ++ [b]) constraints
      = a :: mid ++ [b]) := by
  have hmain : optimize_shortest_distance dist (a :: mid ++ [b]) constraints
      = a :: greedyRouteSpec dist mid.length a mid ++ [b] := by
    cases mid with
    | nil => rfl
    | cons m1 mrest =>
      cases mrest with
      | nil => rfl
      | cons m2 mrest2 =>
        unfold optimize_shortest_distance
        have hlen : ¬ ((a :: (m1 :: m2 :: mrest2) ++ [b]).length ≤ 2) := by
          simp
        rw [if_neg hlen]
        show (if ((m1 :: m2 :: mrest2 ++ [b]).dropLast.length ≤ 1) then _ else
          a :: nearest_neighbor_optimization dist a ((m1 :: m2 :: mrest2 ++ [b]).getLastD a)
            ((m1 :: m2 :: mrest2 ++ [b]).dropLast) ++
            [(m1 :: m2 :: mrest2 ++ [b]).getLastD a]) = _
        have hdrop : (m1 :: m2 :: mrest2 ++ [b]).dropLast = m1 :: m2 :: mrest2 := by
          rw [show m1 :: m2 :: mrest2 ++ [b] = (m1 :: m2 :: mrest2) ++ [b] from rfl]
          exact List.dropLast_concat
        have hlast : (m1 :: m2 :: mrest2 ++ [b]).getLastD a = b := by
          rw [List.getLastD_eq_getLast?,
            show m1 :: m2 :: mrest2 ++ [b] = (m1 :: m2 :: mrest2) ++ [b] from rfl,
            List.getLast?_concat]
          rfl
        rw [hdrop, hlast]
        have hlen2 : ¬ ((m1 :: m2 :: mrest2).length ≤ 1) := by simp
        rw [if_neg hlen2]
        show a :: nnLoop dist (m1 :: m2 :: mrest2).length a (m1 :: m2 :: mrest2) ++ [b] = _
        rw [nnLoop_eq_greedy]
  refine ⟨hmain, greedy_perm dist mid.length a mid le_rfl, ?_⟩
  intro hshort
  rw [hmain]
  cases mid with
  | nil => rfl
  | cons m1 mrest =>
    cases mrest with
    | nil => rfl
    | cons m2 mrest2 => simp at hshort

/-- C8 witness: on a two-waypoint list (no intermediates) the optimizer
returns its input unchanged. -/
theorem optimize_shortest_distance_greedy_witness :
    optimize_shortest_distance zeroDist (snapshot wpKSFO :: [] ++ [snapshot wpKOAK]) none
      = snapshot wpKSFO :: [] ++ [snapshot wpKOAK] :=
  (optimize_shortest_distance_greedy zeroDist (snapshot wpKSFO) (snapshot wpKOAK) [] none).2.2
    (by decide)

/-- C6: find_waypoints_in_radius returns a permutation of exactly the
(waypoint, distance) pairs of the whole store whose distance from the query
point is within the radius, sorted ascending by distance; membership is
characterized for every waypoint and distance, so every stored waypoint is
considered. Stated for every distance function, hence for the source's
haversine with Earth radius 3440.065 nm. -/
theorem find_waypoints_in_radius_filter_sorted (dist : ℚ → ℚ → ℚ → ℚ → ℚ)
    (db : List Waypoint) (center_lat center_lon radius_nm : ℚ) :
    (find_waypoints_in_radius dist db center_lat center_lon radius_nm).Perm
      ((db.map (fun w => (w, dist center_lat center_lon w.latitude w.longitude))).filter
        (fun p => p.2 ≤ radius_nm)) ∧
    (find_waypoints_in_radius dist db center_lat center_lon radius_nm).Pairwise
      (fun a b => a.2 ≤ b.2) ∧
    (∀ w d, (w, d) ∈ find_waypoints_in_radius dist db center_lat center_lon radius_nm ↔
      (w ∈ db ∧ d = dist center_lat center_lon w.latitude w.longitude ∧ d ≤ radius_nm)) := by
  refine ⟨List.mergeSort_perm _ _, ?_, ?_⟩
  · have h := @List.sorted_mergeSort (Waypoint × ℚ)
      (fun a b => decide (a.2 ≤ b.2))
      (fun a b c hab hbc => by
        simp only [decide_eq_true_eq] at *
        exact le_trans hab hbc)
      (fun a b => by
        simp only [Bool.or_eq_true, decide_eq_true_eq]
        exact le_total a.2 b.2)
      ((db.map (fun w => (w, dist center_lat center_lon w.latitude w.longitude))).filter
        (fun p => p.2 ≤ radius_nm))
    exact h.imp (fun hab => by simpa using hab)
  · intro w d
    unfold find_waypoints_in_radius
    rw [(List.mergeSort_perm _ _).mem_iff]
    simp only [List.mem_filter, List.mem_map, decide_eq_true_eq]
    constructor
    · rintro ⟨⟨a, ha, heq⟩, hle⟩
      obtain ⟨rfl, rfl⟩ :=
        Prod.mk.injEq .. ▸ And.intro (congrArg Prod.fst heq) (congrArg Prod.snd heq)
      exact ⟨ha, rfl, hle⟩
    · rintro ⟨hw, rfl, hle⟩
      exact ⟨⟨w, hw, rfl⟩, hle⟩

/-- C9 amended witness: the concrete plan from KSFO to KOAK satisfies the
invariant at creation time. -/
theorem create_flight_plan_creation_invariant_witness :
    2 ≤ exCreatedPlan.waypoints.length ∧
    exCreatedPlan.waypoints.head?.map (fun w => w.identifier) = some "KSFO" ∧
    exCreatedPlan.waypoints.getLast?.map (fun w => w.identifier) = some "KOAK" :=
  create_flight_plan_creation_invariant exDb exManager "P1" "KSFO" "KOAK" [] 35000 450
    wpKSFO wpKOAK (by decide) (by decide) exCreatedPlan rfl

end FMS
